import Mathlib

/-!
Shallow embedding of the HTTP client resilience layer in
`src/services/api.ts`: the sliding-window admission gate
(`cleanupOldRequests` / `shouldRateLimit` / `addToRequestQueue`), the
request interceptor (admission check, bearer-token injection, request-id
tagging) and the response interceptor (success handler and the error
handler with its classification / retry / backoff logic around the
module-level `retryCount`).

Modelling conventions:
- `Date.now()` timestamps and all durations are `Nat` milliseconds.
- `Math.random() * 1000` (the network-retry jitter) is a `Nat` parameter
  `jitter`; theorems that speak about the jitter carry the hypothesis
  `jitter < 1000` mirroring `Math.random() ∈ [0,1)`.
- The random suffix of the correlation id
  (`Math.random().toString(36).substr(2, 9)`) is abstracted as a `Nat`
  parameter `rnd`; what matters for the formalisation is that the header
  is recomputed from fresh data on every pass through the interceptor.
- The `retry-after` response header is modelled already parsed, as
  `Option Nat` (seconds): `parseInt` applied to a numeric header.
- Console logging (`console.log` / `console.error` / `console.warn`),
  which is gated by the logging configuration and is a debug surface
  rather than a user notification, is not modelled; the `toast` calls,
  `localStorage` mutations, the scheduled redirect and the awaited
  delays are modelled as an explicit effect list.
- JavaScript dynamic properties on the error object are modelled as
  explicit fields: `isRateLimit` (set by the admission gate at line 62)
  and `message` (overwritten at line 223).  The code never attaches any
  fallback-related property to an error; the field `fallbackEligible`
  records whether such a property was attached and stays `false`
  through every branch.
-/

namespace ApiClient

/-- Check that `pat` is a prefix of `l`, character by character. -/
def charsPrefix : List Char → List Char → Bool
  | [], _ => true
  | _ :: _, [] => false
  | p :: ps, c :: cs => p == c && charsPrefix ps cs

/-- Check that `pat` occurs contiguously somewhere in `l`. -/
def charsInfix (pat : List Char) : List Char → Bool
  | [] => charsPrefix pat []
  | c :: cs => charsPrefix pat (c :: cs) || charsInfix pat cs

/-- Substring test mirroring JavaScript `String.prototype.includes`: the
needle's character sequence occurs contiguously in the string's. -/
def strIncludes (s pat : String) : Bool :=
  charsInfix pat.data s.data

/-- JavaScript `a || b` on an optional string: an absent or empty string
is falsy and falls through to the default. -/
def jsOr (a : Option String) (b : String) : String :=
  match a with
  | some s => if s = "" then b else s
  | none => b

/-- Entry of `rateLimitConfig.requestQueue`: `{ timestamp, endpoint }`. -/
structure RequestRecord where
  timestamp : Nat
  endpoint : String
deriving DecidableEq, Repr

/-- `rateLimitConfig.maxRequests` (line 11). -/
def rateLimitMaxRequests : Nat := 200

/-- `rateLimitConfig.windowMs` (line 12). -/
def rateLimitWindowMs : Nat := 60000

/-- `cleanupOldRequests` (lines 17-22): keep only records with
`now - timestamp < windowMs`.  `Nat` truncated subtraction agrees with
the JavaScript comparison: a record from the future gives a negative
difference in JavaScript and `0` here, kept in both cases. -/
def cleanupOldRequests (now : Nat) (q : List RequestRecord) : List RequestRecord :=
  q.filter fun req => now - req.timestamp < rateLimitWindowMs

/-- The critical-path allow-list (line 29). -/
def criticalEndpoints : List String := ["/auth/login", "/auth/refresh", "/health"]

/-- `criticalEndpoints.some(critical => endpoint.includes(critical))`
(line 30). -/
def isCriticalEndpoint (endpoint : String) : Bool :=
  criticalEndpoints.any fun critical => strIncludes endpoint critical

/-- `shouldRateLimit` (lines 25-35).  The cleanup pass mutates the
module-level queue, so the function returns the cleaned queue alongside
the decision. -/
def shouldRateLimit (now : Nat) (endpoint : String) (q : List RequestRecord) :
    Bool × List RequestRecord :=
  let cleaned := cleanupOldRequests now q
  if isCriticalEndpoint endpoint then
    (false, cleaned)
  else
    (decide (cleaned.length ≥ rateLimitMaxRequests), cleaned)

/-- `addToRequestQueue` (lines 38-43). -/
def addToRequestQueue (now : Nat) (endpoint : String) (q : List RequestRecord) :
    List RequestRecord :=
  q ++ [⟨now, endpoint⟩]

/-- The per-request axios config as far as this layer reads or writes it:
`url`, the `_retry` flag, the `Authorization` and `X-Request-ID` headers
and the attached `metadata.endpoint`. -/
structure ReqCfg where
  url : String
  retryFlag : Bool := false
  authHeader : Option String := none
  requestId : Option String := none
  metaEndpoint : Option String := none
deriving DecidableEq, Repr

/-- Correlation id `req_${Date.now()}_${randomSuffix}` (line 81), with the
random suffix abstracted as a `Nat`. -/
def mkRequestId (now rnd : Nat) : String :=
  "req_" ++ toString now ++ "_" ++ toString rnd

/-- Result of the request interceptor: either a synchronous rejection
(the admission-gate error, carrying its message and its `isRateLimit`
mark) or the tagged config handed to the transport. -/
inductive ReqOutcome where
  | rejected (message : String) (isRateLimit : Bool)
  | proceed (cfg : ReqCfg)
deriving DecidableEq, Repr

/-- The request interceptor (lines 55-91): admission check, queue
bookkeeping, bearer-token injection from the credential store, metadata
attachment and correlation-id tagging.  `token` is
`localStorage.getItem('auth_token')`. -/
def requestInterceptor (now rnd : Nat) (token : Option String) (cfg : ReqCfg)
    (q : List RequestRecord) : ReqOutcome × List RequestRecord :=
  let endpoint := cfg.url
  let gate := shouldRateLimit now endpoint q
  if gate.1 then
    (.rejected "Rate limit exceeded. Please slow down your requests." true, gate.2)
  else
    let q2 := addToRequestQueue now endpoint gate.2
    let cfg1 := match token with
      | some t => { cfg with authHeader := some ("Bearer " ++ t) }
      | none => cfg
    let cfg2 := { cfg1 with metaEndpoint := some endpoint,
                            requestId := some (mkRequestId now rnd) }
    (.proceed cfg2, q2)

/-- A failed response as the error handler sees it: the originating
config (`error.config`), the response status (`none` when no response
object is present, i.e. a transport-level failure), the parsed
`retry-after` header, the dynamic `isRateLimit` mark, the error message
and the server-provided `response.data.error` / `response.data.message`
fields. -/
structure ErrInput where
  cfg : ReqCfg
  status : Option Nat := none
  retryAfter : Option Nat := none
  isRateLimit : Bool := false
  message : String := ""
  dataError : Option String := none
  dataMessage : Option String := none
  fallbackEligible : Bool := false
deriving DecidableEq, Repr

/-- Observable side effects of the response error handler. -/
inductive Effect where
  | toastError (msg : String)
  | toastInfo (msg : String)
  | removeItem (key : String)
  | scheduleRedirect (path : String) (delayMs : Nat)
  | sleep (ms : Nat)
deriving DecidableEq, Repr

/-- Outcome of the response error handler: propagate the (possibly
message-mutated) error to the caller, or — after the awaited delay —
re-issue `apiClient(originalRequest)` with the given config. -/
inductive RespOutcome where
  | reject (e : ErrInput)
  | reissue (delay : Nat) (cfg : ReqCfg)
deriving DecidableEq, Repr

/-- The module-level mutable state: `retryCount` (line 6) and
`rateLimitConfig.requestQueue` (line 13). -/
structure ApiState where
  retryCount : Nat
  requestQueue : List RequestRecord
deriving DecidableEq, Repr

/-- What one invocation of the response error handler produces: its
effect list in program order, its outcome, and the updated module
state. -/
structure HandlerResult where
  effects : List Effect
  outcome : RespOutcome
  state : ApiState
deriving DecidableEq, Repr

/-- The response success handler (lines 95-106): reset `retryCount` on
any 2xx response. -/
def onSuccess (st : ApiState) : ApiState :=
  { st with retryCount := 0 }

/-- `error.response?.status && error.response.status >= n`: `false` when
no response object is present. -/
def statusAtLeast (e : ErrInput) (n : Nat) : Bool :=
  match e.status with
  | some s => decide (n ≤ s)
  | none => false

/-- The response error handler (lines 107-235), translated branch by
branch in source order.  `maxRetries` is `config.apiRetryAttempts || 3`,
`baseDelay` is `config.apiRetryDelay || 1000`, `jitter` models
`Math.random() * 1000`, and `currentPath` is
`window.location.pathname`. -/
def responseErrorHandler (maxRetries baseDelay jitter : Nat) (currentPath : String)
    (e : ErrInput) (st : ApiState) : HandlerResult :=
  let originalRequest := e.cfg
  -- lines 111-114: client-side rate-limit rejection
  if e.isRateLimit then
    { effects := [.toastError "Too many requests. Please slow down and try again in a moment."],
      outcome := .reject e, state := st }
  -- lines 135-148: 401 Unauthorized
  else if e.status = some 401 then
    let base := [Effect.removeItem "auth_token", Effect.removeItem "user_data",
                 Effect.toastError "Session expired. Please log in again."]
    let effs := if strIncludes currentPath "/auth" then base
                else base ++ [Effect.scheduleRedirect "/auth" 1500]
    { effects := effs, outcome := .reject e, state := st }
  -- lines 151-154: 403 Forbidden
  else if e.status = some 403 then
    { effects := [.toastError "Access denied. You do not have permission to perform this action."],
      outcome := .reject e, state := st }
  -- lines 157-166: 404 Not Found (console.warn only on admin paths)
  else if e.status = some 404 then
    let endpoint := jsOr originalRequest.metaEndpoint originalRequest.url
    if strIncludes endpoint "/admin/" then
      { effects := [], outcome := .reject e, state := st }
    else
      { effects := [.toastError "Resource not found."], outcome := .reject e, state := st }
  -- lines 169-180: 429 server rate limit
  else if e.status = some 429 then
    let delay := match e.retryAfter with
      | some secs => secs * 1000
      | none => 5000
    let trimmed := st.requestQueue.drop (st.requestQueue.length - 50)
    { effects := [.toastError ("Rate limit exceeded. Retrying in " ++ toString (delay / 1000)
                    ++ " seconds..."),
                  .sleep delay],
      outcome := .reissue delay originalRequest,
      state := { st with requestQueue := trimmed } }
  -- lines 183-199: network-error retry with exponential backoff and jitter
  else if e.status = none ∧ originalRequest.retryFlag = false ∧ st.retryCount < maxRetries then
    let newCount := st.retryCount + 1
    let delay := baseDelay * 2 ^ (newCount - 1) + jitter
    { effects := [.toastInfo ("Connection failed. Retrying... (" ++ toString newCount
                    ++ "/" ++ toString maxRetries ++ ")"),
                  .sleep delay],
      outcome := .reissue delay { originalRequest with retryFlag := true },
      state := { st with retryCount := newCount } }
  -- lines 202-216: 5xx retry with exponential backoff, no jitter
  else if statusAtLeast e 500 = true ∧ originalRequest.retryFlag = false
          ∧ st.retryCount < maxRetries then
    let newCount := st.retryCount + 1
    let delay := baseDelay * 2 ^ (newCount - 1)
    { effects := [.toastError ("Server error. Retrying... (" ++ toString newCount
                    ++ "/" ++ toString maxRetries ++ ")"),
                  .sleep delay],
      outcome := .reissue delay { originalRequest with retryFlag := true },
      state := { st with retryCount := newCount } }
  -- lines 218-234: terminal fall-through, reset retryCount then message
  else
    let st1 := { st with retryCount := 0 }
    match e.status with
    | none =>
      { effects := [.toastError "Network error. Please check your internet connection."],
        outcome := .reject { e with message := "Network error. Please check your internet connection." },
        state := st1 }
    | some s =>
      if 500 ≤ s then
        { effects := [.toastError "Server error. Please try again later."],
          outcome := .reject e, state := st1 }
      else if 400 ≤ s ∧ s < 500 then
        let errorMessage := jsOr e.dataError (jsOr e.dataMessage "Request failed")
        let effs := if strIncludes errorMessage "Session expired" = false
                       ∧ strIncludes errorMessage "Access denied" = false then
            [Effect.toastError errorMessage]
          else []
        { effects := effs, outcome := .reject e, state := st1 }
      else
        { effects := [], outcome := .reject e, state := st1 }

/-- One simulated failure of the transport, as fed to the error handler:
the status (`none` = transport-level failure), the parsed `retry-after`
header, and the jitter drawn for this attempt. -/
structure FailSpec where
  status : Option Nat := none
  retryAfter : Option Nat := none
  jitter : Nat := 0
deriving DecidableEq, Repr

/-- Build the error the handler sees when the request dispatched with
config `cfg` fails as described by `f`. -/
def mkErrFrom (cfg : ReqCfg) (f : FailSpec) : ErrInput :=
  { cfg := cfg, status := f.status, retryAfter := f.retryAfter }

/-- Drive a single original request through consecutive failures: each
failure is classified by the error handler; a `reissue` outcome feeds
the (possibly `retryFlag`-marked) config back in for the next failure,
a `reject` outcome stops the loop.  Models the recursive
`apiClient(originalRequest)` re-issue with axios preserving the custom
`_retry` property on the config. -/
def runFailures (maxRetries baseDelay : Nat) (currentPath : String) :
    List FailSpec → ReqCfg → ApiState → List HandlerResult
  | [], _, _ => []
  | f :: rest, cfg, st =>
    let r := responseErrorHandler maxRetries baseDelay f.jitter currentPath (mkErrFrom cfg f) st
    r :: (match r.outcome with
          | .reissue _ cfg2 => runFailures maxRetries baseDelay currentPath rest cfg2 r.state
          | .reject _ => [])

/-- Number of handler invocations in a run that decided to re-issue. -/
def countReissues (rs : List HandlerResult) : Nat :=
  rs.countP fun r => match r.outcome with
    | .reissue _ _ => true
    | .reject _ => false

/-- The delay the 429 branch computes from the parsed header (line 171). -/
def rateLimitDelay (retryAfter : Option Nat) : Nat :=
  match retryAfter with
  | some secs => secs * 1000
  | none => 5000

theorem handler_rateLimitLocal_eq (maxRetries baseDelay jitter : Nat) (path : String)
    (e : ErrInput) (st : ApiState) (hrl : e.isRateLimit = true) :
    responseErrorHandler maxRetries baseDelay jitter path e st =
    { effects := [.toastError "Too many requests. Please slow down and try again in a moment."],
      outcome := .reject e, state := st } := by
  simp [responseErrorHandler, hrl]

theorem handler_401_eq (maxRetries baseDelay jitter : Nat) (path : String)
    (e : ErrInput) (st : ApiState)
    (hrl : e.isRateLimit = false) (hs : e.status = some 401) :
    responseErrorHandler maxRetries baseDelay jitter path e st =
    { effects := [Effect.removeItem "auth_token", Effect.removeItem "user_data",
                  Effect.toastError "Session expired. Please log in again."]
                 ++ (if strIncludes path "/auth" then []
                     else [Effect.scheduleRedirect "/auth" 1500]),
      outcome := .reject e, state := st } := by
  simp only [responseErrorHandler, hrl, hs]
  by_cases h : strIncludes path "/auth" = true <;> simp [h]

theorem handler_403_eq (maxRetries baseDelay jitter : Nat) (path : String)
    (e : ErrInput) (st : ApiState)
    (hrl : e.isRateLimit = false) (hs : e.status = some 403) :
    responseErrorHandler maxRetries baseDelay jitter path e st =
    { effects := [.toastError "Access denied. You do not have permission to perform this action."],
      outcome := .reject e, state := st } := by
  simp [responseErrorHandler, hrl, hs]

theorem handler_404_eq (maxRetries baseDelay jitter : Nat) (path : String)
    (e : ErrInput) (st : ApiState)
    (hrl : e.isRateLimit = false) (hs : e.status = some 404) :
    responseErrorHandler maxRetries baseDelay jitter path e st =
    { effects := if strIncludes (jsOr e.cfg.metaEndpoint e.cfg.url) "/admin/" then []
                 else [Effect.toastError "Resource not found."],
      outcome := .reject e, state := st } := by
  simp only [responseErrorHandler, hrl, hs]
  by_cases h : strIncludes (jsOr e.cfg.metaEndpoint e.cfg.url) "/admin/" = true <;> simp [h]

theorem handler_429_eq (maxRetries baseDelay jitter : Nat) (path : String)
    (e : ErrInput) (st : ApiState)
    (hrl : e.isRateLimit = false) (hs : e.status = some 429) :
    responseErrorHandler maxRetries baseDelay jitter path e st =
    { effects := [.toastError ("Rate limit exceeded. Retrying in "
                    ++ toString (rateLimitDelay e.retryAfter / 1000) ++ " seconds..."),
                  .sleep (rateLimitDelay e.retryAfter)],
      outcome := .reissue (rateLimitDelay e.retryAfter) e.cfg,
      state := { st with requestQueue :=
                   st.requestQueue.drop (st.requestQueue.length - 50) } } := by
  simp only [responseErrorHandler, hrl, hs, rateLimitDelay]
  split <;> simp_all

theorem handler_network_retry_eq (maxRetries baseDelay jitter : Nat) (path : String)
    (e : ErrInput) (st : ApiState)
    (hrl : e.isRateLimit = false) (hs : e.status = none)
    (hflag : e.cfg.retryFlag = false) (hcnt : st.retryCount < maxRetries) :
    responseErrorHandler maxRetries baseDelay jitter path e st =
    { effects := [.toastInfo ("Connection failed. Retrying... (" ++ toString (st.retryCount + 1)
                    ++ "/" ++ toString maxRetries ++ ")"),
                  .sleep (baseDelay * 2 ^ st.retryCount + jitter)],
      outcome := .reissue (baseDelay * 2 ^ st.retryCount + jitter)
                   { e.cfg with retryFlag := true },
      state := { st with retryCount := st.retryCount + 1 } } := by
  simp [responseErrorHandler, hrl, hs, hflag, hcnt]

theorem handler_5xx_retry_eq (maxRetries baseDelay jitter : Nat) (path : String)
    (e : ErrInput) (st : ApiState) (s : Nat)
    (hrl : e.isRateLimit = false) (hs : e.status = some s) (h5 : 500 ≤ s)
    (hflag : e.cfg.retryFlag = false) (hcnt : st.retryCount < maxRetries) :
    responseErrorHandler maxRetries baseDelay jitter path e st =
    { effects := [.toastError ("Server error. Retrying... (" ++ toString (st.retryCount + 1)
                    ++ "/" ++ toString maxRetries ++ ")"),
                  .sleep (baseDelay * 2 ^ st.retryCount)],
      outcome := .reissue (baseDelay * 2 ^ st.retryCount)
                   { e.cfg with retryFlag := true },
      state := { st with retryCount := st.retryCount + 1 } } := by
  have h401 : s ≠ 401 := by omega
  have h403 : s ≠ 403 := by omega
  have h404 : s ≠ 404 := by omega
  have h429 : s ≠ 429 := by omega
  simp [responseErrorHandler, hrl, hs, hflag, hcnt, statusAtLeast, h5,
        h401, h403, h404, h429]

theorem handler_network_terminal_eq (maxRetries baseDelay jitter : Nat) (path : String)
    (e : ErrInput) (st : ApiState)
    (hrl : e.isRateLimit = false) (hs : e.status = none)
    (hstop : e.cfg.retryFlag = true ∨ maxRetries ≤ st.retryCount) :
    responseErrorHandler maxRetries baseDelay jitter path e st =
    { effects := [.toastError "Network error. Please check your internet connection."],
      outcome := .reject { e with message := "Network error. Please check your internet connection." },
      state := { st with retryCount := 0 } } := by
  have hng : e.cfg.retryFlag = false → maxRetries ≤ st.retryCount := by
    intro hf
    rcases hstop with h | h
    · simp [h] at hf
    · exact h
  simp [responseErrorHandler, hrl, hs, statusAtLeast]
  exact hng

theorem handler_5xx_terminal_eq (maxRetries baseDelay jitter : Nat) (path : String)
    (e : ErrInput) (st : ApiState) (s : Nat)
    (hrl : e.isRateLimit = false) (hs : e.status = some s) (h5 : 500 ≤ s)
    (hstop : e.cfg.retryFlag = true ∨ maxRetries ≤ st.retryCount) :
    responseErrorHandler maxRetries baseDelay jitter path e st =
    { effects := [.toastError "Server error. Please try again later."],
      outcome := .reject e, state := { st with retryCount := 0 } } := by
  have h401 : s ≠ 401 := by omega
  have h403 : s ≠ 403 := by omega
  have h404 : s ≠ 404 := by omega
  have h429 : s ≠ 429 := by omega
  have hng : e.cfg.retryFlag = false → maxRetries ≤ st.retryCount := by
    intro hf
    rcases hstop with h | h
    · simp [h] at hf
    · exact h
  have h4 : ¬ (400 ≤ s ∧ s < 500) := by omega
  simp [responseErrorHandler, hrl, hs, statusAtLeast, h401, h403, h404, h429, h5, h4]
  exact hng

theorem handler_4xx_terminal_eq (maxRetries baseDelay jitter : Nat) (path : String)
    (e : ErrInput) (st : ApiState) (s : Nat)
    (hrl : e.isRateLimit = false) (hs : e.status = some s)
    (h4 : 400 ≤ s) (h4b : s < 500)
    (h401 : s ≠ 401) (h403 : s ≠ 403) (h404 : s ≠ 404) (h429 : s ≠ 429) :
    responseErrorHandler maxRetries baseDelay jitter path e st =
    { effects := if strIncludes (jsOr e.dataError (jsOr e.dataMessage "Request failed"))
                      "Session expired" = false
                    ∧ strIncludes (jsOr e.dataError (jsOr e.dataMessage "Request failed"))
                      "Access denied" = false then
                   [Effect.toastError (jsOr e.dataError (jsOr e.dataMessage "Request failed"))]
                 else [],
      outcome := .reject e, state := { st with retryCount := 0 } } := by
  have h5 : ¬ (500 ≤ s) := by omega
  simp only [responseErrorHandler, hrl, hs, statusAtLeast]
  simp [h401, h403, h404, h429, h5, h4, h4b]

/-- C1: for a failed request classified as NetworkError (no response
object) or ServerError (status ≥ 500), the handler re-issues the request
if and only if the request's `_retry` flag is unset and the global
`retryCount` is strictly below `maxRetries`; on retry it sets `_retry`,
increments `retryCount` and waits `baseDelay * 2 ^ (retryCount - 1)`
milliseconds, plus a jitter in `[0, 1000)` for NetworkError only. -/
theorem c1_network_server_retry_policy (maxRetries baseDelay jitter : Nat) (path : String)
    (e : ErrInput) (st : ApiState)
    (hrl : e.isRateLimit = false)
    (_hj : jitter < 1000)
    (hclass : e.status = none ∨ ∃ s, e.status = some s ∧ 500 ≤ s) :
    ((∃ d cfg2, (responseErrorHandler maxRetries baseDelay jitter path e st).outcome
        = RespOutcome.reissue d cfg2)
      ↔ (e.cfg.retryFlag = false ∧ st.retryCount < maxRetries))
    ∧ (e.cfg.retryFlag = false → st.retryCount < maxRetries →
        (responseErrorHandler maxRetries baseDelay jitter path e st).state.retryCount
           = st.retryCount + 1
        ∧ (responseErrorHandler maxRetries baseDelay jitter path e st).outcome
           = RespOutcome.reissue
               (baseDelay * 2 ^ (st.retryCount + 1 - 1)
                 + (if e.status = none then jitter else 0))
               { e.cfg with retryFlag := true }) := by
  rcases hclass with hs | ⟨s, hs, h5⟩
  · constructor
    · constructor
      · rintro ⟨d, cfg2, hout⟩
        by_cases hflag : e.cfg.retryFlag = false
        · by_cases hcnt : st.retryCount < maxRetries
          · exact ⟨hflag, hcnt⟩
          · rw [handler_network_terminal_eq maxRetries baseDelay jitter path e st hrl hs
                  (Or.inr (by omega))] at hout
            simp at hout
        · have hflag2 : e.cfg.retryFlag = true := by
            revert hflag
            cases e.cfg.retryFlag <;> simp
          rw [handler_network_terminal_eq maxRetries baseDelay jitter path e st hrl hs
                (Or.inl hflag2)] at hout
          simp at hout
      · rintro ⟨hflag, hcnt⟩
        rw [handler_network_retry_eq maxRetries baseDelay jitter path e st hrl hs hflag hcnt]
        exact ⟨_, _, rfl⟩
    · intro hflag hcnt
      rw [handler_network_retry_eq maxRetries baseDelay jitter path e st hrl hs hflag hcnt]
      simp [hs]
  · constructor
    · constructor
      · rintro ⟨d, cfg2, hout⟩
        by_cases hflag : e.cfg.retryFlag = false
        · by_cases hcnt : st.retryCount < maxRetries
          · exact ⟨hflag, hcnt⟩
          · rw [handler_5xx_terminal_eq maxRetries baseDelay jitter path e st s hrl hs h5
                  (Or.inr (by omega))] at hout
            simp at hout
        · have hflag2 : e.cfg.retryFlag = true := by
            revert hflag
            cases e.cfg.retryFlag <;> simp
          rw [handler_5xx_terminal_eq maxRetries baseDelay jitter path e st s hrl hs h5
                (Or.inl hflag2)] at hout
          simp at hout
      · rintro ⟨hflag, hcnt⟩
        rw [handler_5xx_retry_eq maxRetries baseDelay jitter path e st s hrl hs h5 hflag hcnt]
        exact ⟨_, _, rfl⟩
    · intro hflag hcnt
      rw [handler_5xx_retry_eq maxRetries baseDelay jitter path e st s hrl hs h5 hflag hcnt]
      simp [hs]

/-- Witness for C1: a concrete transport-level failure with an unset
retry flag and `retryCount = 0 < 3` is re-issued. -/
theorem c1_network_server_retry_policy_witness :
    ∃ d cfg2,
      (responseErrorHandler 3 1000 0 "/"
        { cfg := { url := "/x" }, status := none } ⟨0, []⟩).outcome
      = RespOutcome.reissue d cfg2 :=
  ((c1_network_server_retry_policy 3 1000 0 "/"
      { cfg := { url := "/x" }, status := none } ⟨0, []⟩ rfl (by decide)
      (Or.inl rfl)).1).2 ⟨rfl, by decide⟩

/-- C2 counterexample: with `maxRetries = 3`, `baseDelay = 1000` and an
empty window, three consecutive transport-level NetworkError outcomes
for one original request produce exactly one re-issue — not three — and
the run stops after the second handler invocation. -/
theorem c2_counterexample :
    countReissues (runFailures 3 1000 "/" (List.replicate 3 ({} : FailSpec))
      { url := "/data/x" } ⟨0, []⟩) ≠ 3
    ∧ countReissues (runFailures 3 1000 "/" (List.replicate 3 ({} : FailSpec))
      { url := "/data/x" } ⟨0, []⟩) = 1
    ∧ (runFailures 3 1000 "/" (List.replicate 3 ({} : FailSpec))
      { url := "/data/x" } ⟨0, []⟩).length = 2 := by
  decide

/-- C2, amended: with `maxRetries = 3` and `baseDelay = 1000`, consecutive
transport-level NetworkError outcomes for a single original request lead
to exactly one retry, delayed `1000 * 2 ^ 0` ms plus the jitter, followed
by a propagated terminal NetworkError with the retry counter reset to 0:
the `_retry` flag set on the first retry blocks every further retry. -/
theorem c2_single_retry_then_terminal (j1 j2 j3 : Nat)
    (_h1 : j1 < 1000) (_h2 : j2 < 1000) (_h3 : j3 < 1000) :
    runFailures 3 1000 "/"
      [{ jitter := j1 }, { jitter := j2 }, { jitter := j3 }]
      { url := "/data/x" } ⟨0, []⟩
    = [ { effects := [.toastInfo "Connection failed. Retrying... (1/3)",
                      .sleep (1000 * 2 ^ 0 + j1)],
          outcome := .reissue (1000 * 2 ^ 0 + j1) { url := "/data/x", retryFlag := true },
          state := ⟨1, []⟩ },
        { effects := [.toastError "Network error. Please check your internet connection."],
          outcome := .reject { cfg := { url := "/data/x", retryFlag := true },
                               status := none,
                               message := "Network error. Please check your internet connection." },
          state := ⟨0, []⟩ } ] := by
  simp only [runFailures, mkErrFrom]
  rw [handler_network_retry_eq 3 1000 j1 "/"
    { cfg := { url := "/data/x" }, status := none, retryAfter := none } ⟨0, []⟩
    rfl rfl rfl (by norm_num)]
  simp only []
  rw [handler_network_terminal_eq 3 1000 j2 "/"
    { cfg := { url := "/data/x", retryFlag := true }, status := none, retryAfter := none } ⟨1, []⟩
    rfl rfl (Or.inl rfl)]
  simp
  decide

/-- Witness for C2 (amended): the run with zero jitter. -/
theorem c2_single_retry_then_terminal_witness :
    runFailures 3 1000 "/"
      [{ jitter := 0 }, { jitter := 0 }, { jitter := 0 }]
      { url := "/data/x" } ⟨0, []⟩
    = [ { effects := [.toastInfo "Connection failed. Retrying... (1/3)",
                      .sleep (1000 * 2 ^ 0 + 0)],
          outcome := .reissue (1000 * 2 ^ 0 + 0) { url := "/data/x", retryFlag := true },
          state := ⟨1, []⟩ },
        { effects := [.toastError "Network error. Please check your internet connection."],
          outcome := .reject { cfg := { url := "/data/x", retryFlag := true },
                               status := none,
                               message := "Network error. Please check your internet connection." },
          state := ⟨0, []⟩ } ] :=
  c2_single_retry_then_terminal 0 0 0 (by decide) (by decide) (by decide)

/-- C3 counterexample: a 403 (Forbidden) terminal classification with the
global retry counter at 2 leaves the counter at 2 — it is not reset to 0
as the claim states for every non-retryable terminal classification. -/
theorem c3_counterexample :
    (responseErrorHandler 3 1000 0 "/"
      { cfg := { url := "/x" }, status := some 403 } ⟨2, []⟩).state.retryCount = 2
    ∧ (responseErrorHandler 3 1000 0 "/"
      { cfg := { url := "/x" }, status := some 403 } ⟨2, []⟩).state.retryCount ≠ 0 := by
  decide

/-- C3, amended: the global retry counter is reset to 0 after every 2xx
response and after terminal classifications that reach the fall-through
branch (client errors other than 401/403/404/429, and exhausted
network/server-error retries); the 401, 403, 404 and local-rate-limit
branches return early and leave the counter unchanged. -/
theorem c3_retry_counter_reset_amended (maxRetries baseDelay jitter : Nat) (path : String)
    (e e401 e403 e404 erl enet e5xx : ErrInput) (st st2 : ApiState) (s s5 : Nat)
    (hrl : e.isRateLimit = false) (hs : e.status = some s)
    (h4 : 400 ≤ s) (h4b : s < 500)
    (h401 : s ≠ 401) (h403 : s ≠ 403) (h404 : s ≠ 404) (h429 : s ≠ 429)
    (he401 : e401.isRateLimit = false ∧ e401.status = some 401)
    (he403 : e403.isRateLimit = false ∧ e403.status = some 403)
    (he404 : e404.isRateLimit = false ∧ e404.status = some 404)
    (herl : erl.isRateLimit = true)
    (henet : enet.isRateLimit = false ∧ enet.status = none)
    (hstopn : enet.cfg.retryFlag = true ∨ maxRetries ≤ st2.retryCount)
    (he5xx : e5xx.isRateLimit = false ∧ e5xx.status = some s5) (h5 : 500 ≤ s5)
    (hstop5 : e5xx.cfg.retryFlag = true ∨ maxRetries ≤ st2.retryCount) :
    (onSuccess st).retryCount = 0
    ∧ (responseErrorHandler maxRetries baseDelay jitter path e st).state.retryCount = 0
    ∧ (responseErrorHandler maxRetries baseDelay jitter path enet st2).state.retryCount = 0
    ∧ (responseErrorHandler maxRetries baseDelay jitter path e5xx st2).state.retryCount = 0
    ∧ (responseErrorHandler maxRetries baseDelay jitter path e401 st2).state.retryCount
        = st2.retryCount
    ∧ (responseErrorHandler maxRetries baseDelay jitter path e403 st2).state.retryCount
        = st2.retryCount
    ∧ (responseErrorHandler maxRetries baseDelay jitter path e404 st2).state.retryCount
        = st2.retryCount
    ∧ (responseErrorHandler maxRetries baseDelay jitter path erl st2).state.retryCount
        = st2.retryCount := by
  refine ⟨rfl, ?_, ?_, ?_, ?_, ?_, ?_, ?_⟩
  · rw [handler_4xx_terminal_eq maxRetries baseDelay jitter path e st s hrl hs h4 h4b
        h401 h403 h404 h429]
  · rw [handler_network_terminal_eq maxRetries baseDelay jitter path enet st2
        henet.1 henet.2 hstopn]
  · rw [handler_5xx_terminal_eq maxRetries baseDelay jitter path e5xx st2 s5
        he5xx.1 he5xx.2 h5 hstop5]
  · rw [handler_401_eq maxRetries baseDelay jitter path e401 st2 he401.1 he401.2]
  · rw [handler_403_eq maxRetries baseDelay jitter path e403 st2 he403.1 he403.2]
  · rw [handler_404_eq maxRetries baseDelay jitter path e404 st2 he404.1 he404.2]
  · rw [handler_rateLimitLocal_eq maxRetries baseDelay jitter path erl st2 herl]

/-- Witness for C3 (amended): concrete errors with statuses 400, 401,
403, 404, a local rate-limit mark, an exhausted network failure and an
exhausted 500, with the counter at 5. -/
theorem c3_retry_counter_reset_amended_witness :
    (onSuccess ⟨5, []⟩).retryCount = 0
    ∧ (responseErrorHandler 3 1000 0 "/"
        { cfg := { url := "/x" }, status := some 400 } ⟨5, []⟩).state.retryCount = 0
    ∧ (responseErrorHandler 3 1000 0 "/"
        { cfg := { url := "/x", retryFlag := true }, status := none }
        ⟨5, []⟩).state.retryCount = 0
    ∧ (responseErrorHandler 3 1000 0 "/"
        { cfg := { url := "/x", retryFlag := true }, status := some 500 }
        ⟨5, []⟩).state.retryCount = 0
    ∧ (responseErrorHandler 3 1000 0 "/"
        { cfg := { url := "/x" }, status := some 401 } ⟨5, []⟩).state.retryCount
        = (⟨5, []⟩ : ApiState).retryCount
    ∧ (responseErrorHandler 3 1000 0 "/"
        { cfg := { url := "/x" }, status := some 403 } ⟨5, []⟩).state.retryCount
        = (⟨5, []⟩ : ApiState).retryCount
    ∧ (responseErrorHandler 3 1000 0 "/"
        { cfg := { url := "/x" }, status := some 404 } ⟨5, []⟩).state.retryCount
        = (⟨5, []⟩ : ApiState).retryCount
    ∧ (responseErrorHandler 3 1000 0 "/"
        { cfg := { url := "/x" }, isRateLimit := true } ⟨5, []⟩).state.retryCount
        = (⟨5, []⟩ : ApiState).retryCount :=
  c3_retry_counter_reset_amended 3 1000 0 "/"
    { cfg := { url := "/x" }, status := some 400 }
    { cfg := { url := "/x" }, status := some 401 }
    { cfg := { url := "/x" }, status := some 403 }
    { cfg := { url := "/x" }, status := some 404 }
    { cfg := { url := "/x" }, isRateLimit := true }
    { cfg := { url := "/x", retryFlag := true }, status := none }
    { cfg := { url := "/x", retryFlag := true }, status := some 500 }
    ⟨5, []⟩ ⟨5, []⟩ 400 500 rfl rfl (by decide) (by decide)
    (by decide) (by decide) (by decide) (by decide)
    ⟨rfl, rfl⟩ ⟨rfl, rfl⟩ ⟨rfl, rfl⟩ rfl
    ⟨rfl, rfl⟩ (Or.inl rfl) ⟨rfl, rfl⟩ (by decide) (Or.inl rfl)

set_option maxRecDepth 4000 in
/-- C4: a 429 response is retried unconditionally — for any value of the
global retry counter and of the request's `_retry` flag — with delay
`retry-after × 1000` ms when the header is present and 5000 ms
otherwise, and the admission window is trimmed to its last 50 records;
in particular eight (`maxRetries + 5`) consecutive 429 responses are all
re-issued. -/
theorem c4_server_rate_limit_unbounded (maxRetries baseDelay jitter : Nat) (path : String)
    (e : ErrInput) (st : ApiState)
    (hrl : e.isRateLimit = false) (hs : e.status = some 429) :
    ((responseErrorHandler maxRetries baseDelay jitter path e st).outcome
        = RespOutcome.reissue (rateLimitDelay e.retryAfter) e.cfg
      ∧ (responseErrorHandler maxRetries baseDelay jitter path e st).state.requestQueue
        = st.requestQueue.drop (st.requestQueue.length - 50))
    ∧ countReissues (runFailures 3 1000 "/"
        (List.replicate 8 ({ status := some 429 } : FailSpec)) { url := "/data/y" } ⟨0, []⟩)
      = 8 := by
  refine ⟨⟨?_, ?_⟩, ?_⟩
  · rw [handler_429_eq maxRetries baseDelay jitter path e st hrl hs]
  · rw [handler_429_eq maxRetries baseDelay jitter path e st hrl hs]
  · decide

/-- Witness for C4: a concrete 429 with `retry-after: 2`, the retry flag
already set and the counter far beyond `maxRetries = 3`. -/
theorem c4_server_rate_limit_unbounded_witness :
    (responseErrorHandler 3 1000 0 "/"
      { cfg := { url := "/data/y", retryFlag := true }, status := some 429,
        retryAfter := some 2 } ⟨7, []⟩).outcome
    = RespOutcome.reissue (rateLimitDelay (some 2)) { url := "/data/y", retryFlag := true } :=
  ((c4_server_rate_limit_unbounded 3 1000 0 "/"
      { cfg := { url := "/data/y", retryFlag := true }, status := some 429,
        retryAfter := some 2 } ⟨7, []⟩ rfl rfl).1).1

/-- C5: an endpoint matching the critical allow-list (login, token
refresh, health check) is never rejected by the admission gate, whatever
the window contents, and its request record is still appended to the
window. -/
theorem c5_critical_always_admitted (now rnd : Nat) (token : Option String)
    (cfg : ReqCfg) (q : List RequestRecord)
    (hc : isCriticalEndpoint cfg.url = true) :
    (requestInterceptor now rnd token cfg q).1
      = ReqOutcome.proceed
          { cfg with
              authHeader := (match token with
                             | some t => some ("Bearer " ++ t)
                             | none => cfg.authHeader),
              metaEndpoint := some cfg.url,
              requestId := some (mkRequestId now rnd) }
    ∧ (requestInterceptor now rnd token cfg q).2
      = cleanupOldRequests now q ++ [⟨now, cfg.url⟩] := by
  cases token <;>
    simp [requestInterceptor, shouldRateLimit, hc, addToRequestQueue]

set_option maxRecDepth 4000 in
/-- Witness for C5: `/auth/login` is admitted through a window already
holding 200 fresh records. -/
theorem c5_critical_always_admitted_witness :
    (requestInterceptor 0 0 none { url := "/auth/login" }
        (List.replicate 200 ⟨0, "/other"⟩)).1
      = ReqOutcome.proceed
          { ({ url := "/auth/login" } : ReqCfg) with
              authHeader := (none : Option String),
              metaEndpoint := some "/auth/login",
              requestId := some (mkRequestId 0 0) }
    ∧ (requestInterceptor 0 0 none { url := "/auth/login" }
        (List.replicate 200 ⟨0, "/other"⟩)).2
      = cleanupOldRequests 0 (List.replicate 200 ⟨0, "/other"⟩) ++ [⟨0, "/auth/login"⟩] :=
  c5_critical_always_admitted 0 0 none { url := "/auth/login" }
    (List.replicate 200 ⟨0, "/other"⟩) (by decide)

/-- C6: for a non-critical endpoint, once the window holds 200 records
that are all younger than 60000 ms, the next admission check is rejected
before any network call with the rate-limit-marked error; at a later
time at which every record has aged past the window, the same check
succeeds again. -/
theorem c6_window_rejects_then_recovers (ep : String) (q : List RequestRecord)
    (now later rnd rnd2 : Nat) (token : Option String)
    (hnc : isCriticalEndpoint ep = false)
    (hlen : q.length = rateLimitMaxRequests)
    (hfresh : ∀ r ∈ q, now - r.timestamp < rateLimitWindowMs)
    (hold : ∀ r ∈ q, rateLimitWindowMs ≤ later - r.timestamp) :
    (requestInterceptor now rnd token { url := ep } q).1
      = ReqOutcome.rejected "Rate limit exceeded. Please slow down your requests." true
    ∧ (requestInterceptor later rnd2 token { url := ep } q).1
      = ReqOutcome.proceed
          { ({ url := ep } : ReqCfg) with
              authHeader := (match token with
                             | some t => some ("Bearer " ++ t)
                             | none => none),
              metaEndpoint := some ep,
              requestId := some (mkRequestId later rnd2) } := by
  have hclean1 : cleanupOldRequests now q = q := by
    apply List.filter_eq_self.mpr
    intro a ha
    simpa using hfresh a ha
  have hclean2 : cleanupOldRequests later q = [] := by
    rw [cleanupOldRequests, List.filter_eq_nil_iff]
    intro a ha
    have := hold a ha
    simp
    omega
  constructor
  · simp [requestInterceptor, shouldRateLimit, hclean1, hnc, hlen]
  · cases token <;>
      simp [requestInterceptor, shouldRateLimit, hclean2, hnc, addToRequestQueue,
            rateLimitMaxRequests]

set_option maxRecDepth 4000 in
/-- Witness for C6: a window of 200 records at timestamp 0, checked at
time 0 (rejected) and at time 60000 (admitted). -/
theorem c6_window_rejects_then_recovers_witness :
    (requestInterceptor 0 0 none { url := "/data/x" }
        (List.replicate 200 ⟨0, "/data/x"⟩)).1
      = ReqOutcome.rejected "Rate limit exceeded. Please slow down your requests." true
    ∧ (requestInterceptor 60000 0 none { url := "/data/x" }
        (List.replicate 200 ⟨0, "/data/x"⟩)).1
      = ReqOutcome.proceed
          { ({ url := "/data/x" } : ReqCfg) with
              authHeader := (none : Option String),
              metaEndpoint := some "/data/x",
              requestId := some (mkRequestId 60000 0) } :=
  c6_window_rejects_then_recovers "/data/x" (List.replicate 200 ⟨0, "/data/x"⟩)
    0 60000 0 0 none (by decide) (by decide) (by decide) (by decide)

set_option maxRecDepth 4000 in
/-- C7 counterexample: a re-issued request (its `_retry` flag is set) to
a non-critical endpoint is still rejected by the admission gate when the
window is full — the gate IS re-checked on retries, contrary to the
claim. -/
theorem c7_counterexample :
    (requestInterceptor 0 0 none { url := "/data/x", retryFlag := true }
       (List.replicate 200 ⟨0, "/data/x"⟩)).1
    = ReqOutcome.rejected "Rate limit exceeded. Please slow down your requests." true := by
  decide

/-- C7, amended: a re-issued request passes through the full request
interceptor again, including the admission gate, which its set `_retry`
flag does not bypass: it is rejected whenever the gate fires; when
admitted it acquires a freshly computed `X-Request-ID` and an
`Authorization` header recomputed from the same stored token, with the
`_retry` flag preserved. -/
theorem c7_reissue_passes_gate_and_retags (now rnd : Nat) (token : Option String)
    (cfg : ReqCfg) (q : List RequestRecord)
    (_hflag : cfg.retryFlag = true) :
    ((shouldRateLimit now cfg.url q).1 = true →
      (requestInterceptor now rnd token cfg q).1
        = ReqOutcome.rejected "Rate limit exceeded. Please slow down your requests." true)
    ∧ ((shouldRateLimit now cfg.url q).1 = false →
      (requestInterceptor now rnd token cfg q).1
        = ReqOutcome.proceed
            { cfg with
                authHeader := (match token with
                               | some t => some ("Bearer " ++ t)
                               | none => cfg.authHeader),
                metaEndpoint := some cfg.url,
                requestId := some (mkRequestId now rnd) }) := by
  constructor
  · intro h
    simp [requestInterceptor, h]
  · intro h
    cases token <;> simp [requestInterceptor, h]

/-- Witness for C7 (amended): a retried request to `/data/y` through an
empty window, with a stored token. -/
theorem c7_reissue_passes_gate_and_retags_witness :
    (requestInterceptor 5 9 (some "tok") { url := "/data/y", retryFlag := true } []).1
      = ReqOutcome.proceed
          { ({ url := "/data/y", retryFlag := true } : ReqCfg) with
              authHeader := some ("Bearer " ++ "tok"),
              metaEndpoint := some "/data/y",
              requestId := some (mkRequestId 5 9) } :=
  (c7_reissue_passes_gate_and_retags 5 9 (some "tok")
    { url := "/data/y", retryFlag := true } [] rfl).2 (by decide)

/-- C8: a 401 response removes the credential-store entries `auth_token`
and `user_data` exactly once, raises the session-expired toast, schedules
a redirect to `/auth` after 1500 ms unless the current path already
contains `/auth`, and propagates the error terminally without retry. -/
theorem c8_unauthorized_handling (maxRetries baseDelay jitter : Nat) (path : String)
    (e : ErrInput) (st : ApiState)
    (hrl : e.isRateLimit = false) (hs : e.status = some 401) :
    (responseErrorHandler maxRetries baseDelay jitter path e st).effects
      = [Effect.removeItem "auth_token", Effect.removeItem "user_data",
         Effect.toastError "Session expired. Please log in again."]
        ++ (if strIncludes path "/auth" then []
            else [Effect.scheduleRedirect "/auth" 1500])
    ∧ (responseErrorHandler maxRetries baseDelay jitter path e st).outcome
      = RespOutcome.reject e
    ∧ (responseErrorHandler maxRetries baseDelay jitter path e st).effects.count
        (Effect.removeItem "auth_token") = 1
    ∧ (responseErrorHandler maxRetries baseDelay jitter path e st).effects.count
        (Effect.removeItem "user_data") = 1 := by
  rw [handler_401_eq maxRetries baseDelay jitter path e st hrl hs]
  by_cases h : strIncludes path "/auth" = true <;> simp [h]

/-- Witness for C8: a concrete 401 away from the auth page. -/
theorem c8_unauthorized_handling_witness :
    (responseErrorHandler 3 1000 0 "/news"
      { cfg := { url := "/data/x" }, status := some 401 } ⟨0, []⟩).effects
      = [Effect.removeItem "auth_token", Effect.removeItem "user_data",
         Effect.toastError "Session expired. Please log in again."]
        ++ (if strIncludes "/news" "/auth" then []
            else [Effect.scheduleRedirect "/auth" 1500]) :=
  (c8_unauthorized_handling 3 1000 0 "/news"
    { cfg := { url := "/data/x" }, status := some 401 } ⟨0, []⟩ rfl rfl).1

/-- C9 counterexample: for a 404 on `/admin/users` no toast is raised,
but the caller receives the NotFound error completely unchanged — in
particular no fallback-eligible flag is attached to it. -/
theorem c9_counterexample :
    (responseErrorHandler 3 1000 0 "/"
      { cfg := { url := "/admin/users", metaEndpoint := some "/admin/users" },
        status := some 404 } ⟨0, []⟩).effects = []
    ∧ (responseErrorHandler 3 1000 0 "/"
      { cfg := { url := "/admin/users", metaEndpoint := some "/admin/users" },
        status := some 404 } ⟨0, []⟩).outcome
      = RespOutcome.reject
          { cfg := { url := "/admin/users", metaEndpoint := some "/admin/users" },
            status := some 404 }
    ∧ ({ cfg := { url := "/admin/users", metaEndpoint := some "/admin/users" },
         status := some 404 } : ErrInput).fallbackEligible = false := by
  decide

/-- C9, amended: a 404 gives up without retry; the user is notified with
the not-found toast unless the endpoint contains `/admin/`, in which
case no toast is raised (only a console warning) and the caller receives
the NotFound error unchanged, with no fallback-eligibility flag
attached. -/
theorem c9_not_found_amended (maxRetries baseDelay jitter : Nat) (path : String)
    (e : ErrInput) (st : ApiState)
    (hrl : e.isRateLimit = false) (hs : e.status = some 404) :
    (responseErrorHandler maxRetries baseDelay jitter path e st).outcome
      = RespOutcome.reject e
    ∧ (responseErrorHandler maxRetries baseDelay jitter path e st).effects
      = (if strIncludes (jsOr e.cfg.metaEndpoint e.cfg.url) "/admin/" then []
         else [Effect.toastError "Resource not found."]) := by
  rw [handler_404_eq maxRetries baseDelay jitter path e st hrl hs]
  exact ⟨rfl, rfl⟩

/-- Witness for C9 (amended): the admin scenario of the claim. -/
theorem c9_not_found_amended_witness :
    (responseErrorHandler 3 1000 0 "/"
      { cfg := { url := "/admin/users", metaEndpoint := some "/admin/users" },
        status := some 404 } ⟨1, []⟩).outcome
      = RespOutcome.reject
          { cfg := { url := "/admin/users", metaEndpoint := some "/admin/users" },
            status := some 404 } :=
  (c9_not_found_amended 3 1000 0 "/"
    { cfg := { url := "/admin/users", metaEndpoint := some "/admin/users" },
      status := some 404 } ⟨1, []⟩ rfl rfl).1

/-- C10: the 429 branch neither increments nor resets the global retry
counter, so server-rate-limit retry loops consume none of the
NetworkError/ServerError retry budget and do not clear a
partially-consumed budget. -/
theorem c10_429_preserves_retry_counter (maxRetries baseDelay jitter : Nat) (path : String)
    (e : ErrInput) (st : ApiState)
    (hrl : e.isRateLimit = false) (hs : e.status = some 429) :
    (responseErrorHandler maxRetries baseDelay jitter path e st).state.retryCount
      = st.retryCount := by
  rw [handler_429_eq maxRetries baseDelay jitter path e st hrl hs]

/-- Witness for C10: a 429 with the counter mid-budget at 2. -/
theorem c10_429_preserves_retry_counter_witness :
    (responseErrorHandler 3 1000 0 "/"
      { cfg := { url := "/data/y" }, status := some 429 } ⟨2, []⟩).state.retryCount
      = (⟨2, []⟩ : ApiState).retryCount :=
  c10_429_preserves_retry_counter 3 1000 0 "/"
    { cfg := { url := "/data/y" }, status := some 429 } ⟨2, []⟩ rfl rfl

end ApiClient
